import Mathlib

/-!
Shallow embedding of api/alexa.py from the alexa-ai-agent repository.

The Python module is a stateless request handler: a Vercel serverless
entry point that routes Alexa speech requests to a small fixed set of
response builders, one of which calls an external text-completion
service.  The embedding below mirrors the source function by function:

* JSON values become the inductive type `Json`; Python dict subscripting
  `d[k]`, which raises on a missing key or a non-dict receiver, becomes
  the `Option`-valued `jIndex`; Python `d.get(k, default)`, which raises
  only on a non-dict receiver, becomes `jGetD`.
* a raised exception is `Option.none` propagating outward; a Python
  `try/except` catch-all is a `match` on the `Option` (or `Option.getD`)
  that replaces `none` by the handler written in the `except` branch.
* the single external call to the completion service is abstracted by a
  `ModelResult` argument: `ok content` is a successful completion whose
  message content is the string `content`, `err` is any failure of the
  call (network error, API error, missing choices, null content).
  Strings handled by the AI responder are `List Char`, matching Python
  strings as character sequences, so that `len`, slicing and `strip`
  are `List.length`, `List.take` and `pyStrip`.
-/

namespace Alexa

/-- JSON values, as produced by json.loads in the handler. -/
inductive Json where
  | null : Json
  | bool : Bool → Json
  | num : Int → Json
  | str : String → Json
  | arr : List Json → Json
  | obj : List (String × Json) → Json

/-- Python dict subscript access `d[k]`: the value when the receiver is a
dict containing the key, `none` (an exception) otherwise. -/
def jIndex : Json → String → Option Json
  | Json.obj fs, k => fs.lookup k
  | _, _ => none

/-- Python `d.get(k, default)`: total on dicts, `none` (an exception) on a
non-dict receiver. -/
def jGetD : Json → String → Json → Option Json
  | Json.obj fs, k, d => some ((fs.lookup k).getD d)
  | _, _, _ => none

/-- Python truthiness of a JSON value: None, False, 0, empty string, empty
list and empty dict are falsy. -/
def truthy : Json → Bool
  | Json.null => false
  | Json.bool b => b
  | Json.num n => n != 0
  | Json.str s => !s.isEmpty
  | Json.arr xs => !xs.isEmpty
  | Json.obj fs => !fs.isEmpty

/-- Python equality between a JSON value and a string constant: true
exactly when the value is that string (values of other types never equal
a string in Python). -/
def isStr : Json → String → Bool
  | Json.str t, s => t == s
  | _, _ => false

/-- Outcome of the one external chat-completion call made by
generate_ai_response: a successful completion with message content, or
any failure of the call. -/
inductive ModelResult where
  | ok : List Char → ModelResult
  | err : ModelResult

/-- Python str.isspace on a single character, restricted to the ASCII
whitespace stripped by str.strip. -/
def isPySpace (c : Char) : Bool :=
  c == ' ' || c == '\t' || c == '\n' || c == '\r' || c == '\x0b' || c == '\x0c'

/-- Python str.strip: drop leading and trailing whitespace. -/
def pyStrip (cs : List Char) : List Char :=
  (((cs.dropWhile isPySpace).reverse.dropWhile isPySpace)).reverse

/-- Embeds generate_ai_response (api/alexa.py lines 153 to 192).  The
whole body sits in a try/except: any failure of the external call yields
the static fallback sentence.  On success the content is stripped and,
when longer than 8000 characters, truncated to its first 7900 characters
plus an ellipsis.  The user query and user id are passed through to the
external call, whose outcome the `ext` argument abstracts. -/
def generate_ai_response (ext : ModelResult) (user_query user_id : Json) : List Char :=
  match ext, user_query, user_id with
  | ModelResult.ok content, _, _ =>
      let ai_response := pyStrip content
      if ai_response.length > 8000 then ai_response.take 7900 ++ ("...").toList
      else ai_response
  | ModelResult.err, _, _ =>
      ("I\x27m having trouble connecting to my knowledge base right now. Please try again in a moment.").toList

/-- Embeds handle_launch_request (lines 80 to 101). -/
def handle_launch_request : Json :=
  Json.obj [("version", Json.str "1.0"),
    ("response", Json.obj [
      ("outputSpeech", Json.obj [("type", Json.str "PlainText"),
        ("text", Json.str "Hello! I\x27m your AI assistant. How can I help you today?")]),
      ("reprompt", Json.obj [
        ("outputSpeech", Json.obj [("type", Json.str "PlainText"),
          ("text", Json.str "What would you like me to help you with?")])]),
      ("shouldEndSession", Json.bool false)])]

/-- Embeds handle_help_intent (lines 194 to 209). -/
def handle_help_intent : Json :=
  Json.obj [("version", Json.str "1.0"),
    ("response", Json.obj [
      ("outputSpeech", Json.obj [("type", Json.str "PlainText"),
        ("text", Json.str "I\x27m your AI assistant. You can ask me questions, get information, or have a conversation. Just say what you need help with!")]),
      ("shouldEndSession", Json.bool false)])]

/-- Embeds handle_stop_intent (lines 211 to 224). -/
def handle_stop_intent : Json :=
  Json.obj [("version", Json.str "1.0"),
    ("response", Json.obj [
      ("outputSpeech", Json.obj [("type", Json.str "PlainText"),
        ("text", Json.str "Goodbye!")]),
      ("shouldEndSession", Json.bool true)])]

/-- Embeds handle_session_ended_request (lines 226 to 233). -/
def handle_session_ended_request : Json :=
  Json.obj [("version", Json.str "1.0"), ("response", Json.obj [])]

/-- Embeds create_error_response (lines 235 to 248). -/
def create_error_response (message : String) : Json :=
  Json.obj [("version", Json.str "1.0"),
    ("response", Json.obj [
      ("outputSpeech", Json.obj [("type", Json.str "PlainText"),
        ("text", Json.str message)]),
      ("shouldEndSession", Json.bool false)])]

/-- Embeds line 125 of handle_chat_intent:
slots = alexa_request[request][intent].get(slots, dict()), given the
intent object. -/
def extract_slots (intent : Json) : Option Json :=
  jGetD intent "slots" (Json.obj [])

/-- Embeds lines 131 to 132 of handle_chat_intent:
session = alexa_request.get(session, dict());
user_id = session.get(user, dict()).get(userId, unknown). -/
def extract_user_id (alexa_request : Json) : Option Json :=
  match jGetD alexa_request "session" (Json.obj []) with
  | none => none
  | some session =>
    match jGetD session "user" (Json.obj []) with
    | none => none
    | some user => jGetD user "userId" (Json.str "unknown")

/-- Embeds lines 124 to 126 of handle_chat_intent: navigate to the intent
object, read its slots with an empty-dict default, then the query slot
and its value, defaulting to the empty string. -/
def extracted_query (alexa_request : Json) : Option Json :=
  match jIndex alexa_request "request" with
  | none => none
  | some request =>
    match jIndex request "intent" with
    | none => none
    | some intent =>
      match extract_slots intent with
      | none => none
      | some slots =>
        match jGetD slots "query" (Json.obj []) with
        | none => none
        | some queryObj => jGetD queryObj "value" (Json.str "")

/-- Body of the try block of handle_chat_intent (lines 122 to 144):
`none` is an exception reaching the except clause. -/
def chat_intent_core (ext : ModelResult) (alexa_request : Json) : Option Json :=
  match extracted_query alexa_request with
  | none => none
  | some user_query =>
    if !truthy user_query then
      some (create_error_response "I didn\x27t catch what you said. Could you repeat that?")
    else
      match extract_user_id alexa_request with
      | none => none
      | some user_id =>
        some (Json.obj [("version", Json.str "1.0"),
          ("response", Json.obj [
            ("outputSpeech", Json.obj [("type", Json.str "PlainText"),
              ("text", Json.str (String.mk (generate_ai_response ext user_query user_id)))]),
            ("shouldEndSession", Json.bool false)])])

/-- Embeds handle_chat_intent (lines 119 to 151): the try body, with the
except clause turning any exception into the processing-trouble error
response. -/
def handle_chat_intent (ext : ModelResult) (alexa_request : Json) : Json :=
  match chat_intent_core ext alexa_request with
  | some resp => resp
  | none => create_error_response "Sorry, I had trouble processing your request."

/-- Embeds handle_intent_request (lines 103 to 117): reads
alexa_request[request][intent][name] (each subscript may raise, hence
`none`) and dispatches on the intent name. -/
def handle_intent_request (ext : ModelResult) (alexa_request : Json) : Option Json :=
  match jIndex alexa_request "request" with
  | none => none
  | some request =>
    match jIndex request "intent" with
    | none => none
    | some intent =>
      match jIndex intent "name" with
      | none => none
      | some intent_name =>
        if isStr intent_name "ChatIntent" then
          some (handle_chat_intent ext alexa_request)
        else if isStr intent_name "AMAZON.HelpIntent" then
          some handle_help_intent
        else if isStr intent_name "AMAZON.CancelIntent" || isStr intent_name "AMAZON.StopIntent" then
          some handle_stop_intent
        else
          some (create_error_response "I didn\x27t understand that request.")

/-- Embeds process_alexa_request (lines 65 to 78): reads
alexa_request[request][type] (each subscript may raise, hence `none`)
and dispatches on the request type. -/
def process_alexa_request (ext : ModelResult) (alexa_request : Json) : Option Json :=
  match jIndex alexa_request "request" with
  | none => none
  | some request =>
    match jIndex request "type" with
    | none => none
    | some request_type =>
      if isStr request_type "LaunchRequest" then
        some handle_launch_request
      else if isStr request_type "IntentRequest" then
        handle_intent_request ext alexa_request
      else if isStr request_type "SessionEndedRequest" then
        some handle_session_ended_request
      else
        some (create_error_response "Unknown request type")

/-- HTTP-level reply of the serverless handler: a status code and a JSON
body (the source serializes the body with json.dumps; the embedding keeps
it as a JSON value). -/
structure HttpResp where
  statusCode : Nat
  body : Json

/-- Minimal JSON error body used by the transport-level rejections. -/
def errorBody (msg : String) : Json :=
  Json.obj [("error", Json.str msg)]

/-- Speech-shaped apology body returned by the catch-all except clause of
the handler (lines 49 to 63). -/
def apologyBody : Json :=
  Json.obj [("version", Json.str "1.0"),
    ("response", Json.obj [
      ("outputSpeech", Json.obj [("type", Json.str "PlainText"),
        ("text", Json.str "Sorry, I encountered an error. Please try again.")]),
      ("shouldEndSession", Json.bool true)])]

/-- Body of the try block of handler (lines 20 to 47).  The method check,
body parsing (`parsedBody = none` models a body json.loads cannot parse),
the truthiness check of the request field, and routing; `none` is an
exception reaching the except clause. -/
def handlerCore (ext : ModelResult) (method : String) (parsedBody : Option Json) : Option HttpResp :=
  if method != "POST" then
    some (HttpResp.mk 405 (errorBody "Method not allowed"))
  else
    match parsedBody with
    | none => none
    | some alexa_request =>
      match jGetD alexa_request "request" Json.null with
      | none => none
      | some requestField =>
        if !truthy requestField then
          some (HttpResp.mk 400 (errorBody "Invalid Alexa request"))
        else
          match process_alexa_request ext alexa_request with
          | none => none
          | some resp => some (HttpResp.mk 200 resp)

/-- Embeds handler (lines 15 to 63): the try body, with the except clause
turning any uncaught exception into a 500 reply carrying the speech-shaped
apology. -/
def handler (ext : ModelResult) (method : String) (parsedBody : Option Json) : HttpResp :=
  (handlerCore ext method parsedBody).getD (HttpResp.mk 500 apologyBody)

/-- Version field of an outbound response. -/
def getVersion (resp : Json) : Option Json :=
  jIndex resp "version"

/-- Inner response object of an outbound response. -/
def getResponseObj (resp : Json) : Option Json :=
  jIndex resp "response"

/-- shouldEndSession flag of an outbound response, when present. -/
def getSES (resp : Json) : Option Json :=
  (jIndex resp "response").bind (fun r => jIndex r "shouldEndSession")

/-- Output speech text of an outbound response, when present. -/
def getSpeechText (resp : Json) : Option Json :=
  ((jIndex resp "response").bind (fun r => jIndex r "outputSpeech")).bind
    (fun os => jIndex os "text")

/-- Reprompt speech text of an outbound response, when present. -/
def getRepromptText (resp : Json) : Option Json :=
  (((jIndex resp "response").bind (fun r => jIndex r "reprompt")).bind
    (fun rp => jIndex rp "outputSpeech")).bind (fun os => jIndex os "text")

/-- Requests on which process_alexa_request completes without raising:
the request object and its type are present and, for an IntentRequest,
the intent object and its name are present.  Read off the subscript
accesses of process_alexa_request and handle_intent_request. -/
def routerWellFormed (alexa_request : Json) : Bool :=
  match jIndex alexa_request "request" with
  | none => false
  | some request =>
    match jIndex request "type" with
    | none => false
    | some request_type =>
      if isStr request_type "IntentRequest" then
        match jIndex request "intent" with
        | none => false
        | some intent => (jIndex intent "name").isSome
      else true

/-- Requests routed to handle_stop_intent: an IntentRequest whose intent
name is AMAZON.CancelIntent or AMAZON.StopIntent. -/
def isStopCancelReq (alexa_request : Json) : Bool :=
  match jIndex alexa_request "request" with
  | none => false
  | some request =>
    match jIndex request "type" with
    | none => false
    | some request_type =>
      if isStr request_type "IntentRequest" then
        match jIndex request "intent" with
        | none => false
        | some intent =>
          match jIndex intent "name" with
          | none => false
          | some intent_name =>
            isStr intent_name "AMAZON.CancelIntent" || isStr intent_name "AMAZON.StopIntent"
      else false

/-- Requests routed to handle_chat_intent: an IntentRequest whose intent
name is ChatIntent. -/
def isChatIntentReq (alexa_request : Json) : Bool :=
  match jIndex alexa_request "request" with
  | none => false
  | some request =>
    match jIndex request "type" with
    | none => false
    | some request_type =>
      if isStr request_type "IntentRequest" then
        match jIndex request "intent" with
        | none => false
        | some intent =>
          match jIndex intent "name" with
          | none => false
          | some intent_name => isStr intent_name "ChatIntent"
      else false

end Alexa

namespace Alexa

/-- Characterization of Python string-constant equality on JSON values. -/
theorem isStr_true_iff (j : Json) (s : String) : isStr j s = true ↔ j = Json.str s := by
  cases j <;> simp [isStr]

/-- Shape of any response produced inside the try block of
handle_chat_intent: version 1.0 and shouldEndSession false. -/
theorem chat_core_shape (ext : ModelResult) (req resp : Json)
    (h : chat_intent_core ext req = some resp) :
    getVersion resp = some (Json.str "1.0") ∧ getSES resp = some (Json.bool false) := by
  unfold chat_intent_core at h
  split at h
  · exact absurd h (by simp)
  · split at h
    · injection h with h
      subst h
      exact ⟨rfl, rfl⟩
    · split at h
      · exact absurd h (by simp)
      · injection h with h
        subst h
        exact ⟨rfl, rfl⟩

/-- Shape of any response produced by handle_chat_intent: version 1.0 and
shouldEndSession false, also on the except path. -/
theorem chat_response_fields (ext : ModelResult) (req : Json) :
    getVersion (handle_chat_intent ext req) = some (Json.str "1.0") ∧
    getSES (handle_chat_intent ext req) = some (Json.bool false) := by
  unfold handle_chat_intent
  cases h : chat_intent_core ext req with
  | none => exact ⟨rfl, rfl⟩
  | some resp => exact chat_core_shape ext req resp h

/-- C6: on any failure of the external completion call,
generate_ai_response returns the fixed static fallback sentence about
trouble connecting to the knowledge base; being a total function into
strings, it never propagates an exception to the router. -/
theorem ai_responder_fallback (user_query user_id : Json) :
    generate_ai_response ModelResult.err user_query user_id =
      ("I\x27m having trouble connecting to my knowledge base right now. Please try again in a moment.").toList := rfl

/-- C5: for every string returned by the external model, the speech text
returned by generate_ai_response has length at most 8000; whenever the
stripped model output exceeds 8000 characters, the result is exactly its
first 7900 characters followed by the ellipsis marker. -/
theorem ai_speech_truncation (content : List Char) (user_query user_id : Json) :
    (generate_ai_response (ModelResult.ok content) user_query user_id).length ≤ 8000 ∧
    ((pyStrip content).length > 8000 →
      generate_ai_response (ModelResult.ok content) user_query user_id =
        (pyStrip content).take 7900 ++ ("...").toList) := by
  have hred : generate_ai_response (ModelResult.ok content) user_query user_id =
      (if (pyStrip content).length > 8000 then (pyStrip content).take 7900 ++ ("...").toList
       else pyStrip content) := rfl
  rw [hred]
  by_cases h : (pyStrip content).length > 8000
  · rw [if_pos h]
    refine ⟨?_, fun _ => rfl⟩
    rw [List.length_append, List.length_take]
    have h3 : (("...").toList).length = 3 := rfl
    rw [h3]
    omega
  · rw [if_neg h]
    exact ⟨by omega, fun hc => absurd hc h⟩

/-- Support for the truncation witness: stripping a replicated
non-whitespace character changes nothing. -/
theorem pyStrip_replicate_a (n : Nat) : pyStrip (List.replicate n 'a') = List.replicate n 'a' := by
  have hdrop : ∀ m : Nat, List.dropWhile isPySpace (List.replicate m 'a') = List.replicate m 'a' := by
    intro m
    cases m with
    | zero => rfl
    | succ k =>
      rw [List.replicate_succ, List.dropWhile_cons]
      simp [isPySpace]
  unfold pyStrip
  rw [hdrop, List.reverse_replicate, hdrop, List.reverse_replicate]

/-- Witness for C5 at a concrete 8001-character model output. -/
theorem ai_speech_truncation_witness :
    (pyStrip (List.replicate 8001 'a')).length > 8000 ∧
    generate_ai_response (ModelResult.ok (List.replicate 8001 'a')) Json.null Json.null =
      (pyStrip (List.replicate 8001 'a')).take 7900 ++ ("...").toList := by
  have hlen : (pyStrip (List.replicate 8001 'a')).length > 8000 := by
    rw [pyStrip_replicate_a, List.length_replicate]
    omega
  exact ⟨hlen, (ai_speech_truncation (List.replicate 8001 'a') Json.null Json.null).2 hlen⟩

/-- C1 counterexample: a POST whose body json.loads cannot parse raises
inside the try block (handlerCore yields none), and the catch-all reply
has HTTP status 500, not 200 as claimed. -/
theorem catch_all_status_counterexample :
    handlerCore ModelResult.err "POST" Option.none = none ∧
    (handler ModelResult.err "POST" Option.none).statusCode = 500 ∧
    (handler ModelResult.err "POST" Option.none).statusCode ≠ 200 := by
  exact ⟨rfl, rfl, by decide⟩

/-- C1 amended: whenever processing raises an uncaught exception (the try
body of handler yields none), the catch-all returns HTTP status 500 with
the fixed speech-shaped apology body, whose shouldEndSession is true and
whose speech text is the constant apology sentence, so the body never
contains the raw exception text. -/
theorem catch_all_apology (ext : ModelResult) (method : String) (parsedBody : Option Json)
    (h : handlerCore ext method parsedBody = none) :
    handler ext method parsedBody = HttpResp.mk 500 apologyBody ∧
    getSES apologyBody = some (Json.bool true) ∧
    getSpeechText apologyBody = some (Json.str "Sorry, I encountered an error. Please try again.") := by
  refine ⟨?_, rfl, rfl⟩
  unfold handler
  rw [h]
  rfl

/-- Witness for the amended C1 at a concrete unparseable POST body. -/
theorem catch_all_apology_witness :
    handler ModelResult.err "POST" Option.none = HttpResp.mk 500 apologyBody ∧
    getSES apologyBody = some (Json.bool true) ∧
    getSpeechText apologyBody = some (Json.str "Sorry, I encountered an error. Please try again.") :=
  catch_all_apology ModelResult.err "POST" Option.none rfl

/-- C4 counterexample: an unparseable POST body is not answered with a
400 error-shaped body; it falls into the catch-all and yields HTTP 500
with the speech-shaped apology (which has no top-level error field and
does carry the speech envelope). -/
theorem unparseable_body_counterexample :
    handler ModelResult.err "POST" Option.none = HttpResp.mk 500 apologyBody ∧
    (handler ModelResult.err "POST" Option.none).statusCode ≠ 400 ∧
    jIndex apologyBody "error" = none ∧
    getVersion apologyBody = some (Json.str "1.0") := by
  exact ⟨rfl, by decide, rfl, rfl⟩

/-- C4 amended: a non-POST method yields 405 with the minimal JSON error
body, and a parsed body whose request field is missing or falsy yields
400 with the minimal JSON error body; an unparseable body, however, falls
through to the catch-all and yields 500 with the speech-shaped apology,
so wrong method and missing request field are the only non-speech-shaped
failures. -/
theorem transport_errors (ext : ModelResult) (method : String) (parsedBody : Option Json) :
    (method ≠ "POST" → handler ext method parsedBody = HttpResp.mk 405 (errorBody "Method not allowed")) ∧
    (∀ req requestField, method = "POST" → parsedBody = some req →
      jGetD req "request" Json.null = some requestField → truthy requestField = false →
      handler ext method parsedBody = HttpResp.mk 400 (errorBody "Invalid Alexa request")) ∧
    (method = "POST" → parsedBody = none → handler ext method parsedBody = HttpResp.mk 500 apologyBody) := by
  refine ⟨?_, ?_, ?_⟩
  · intro hm
    unfold handler handlerCore
    have hb : (method != "POST") = true := by
      simp [bne_iff_ne, hm]
    rw [hb]
    rfl
  · intro req requestField hm hb hget htr
    subst hm
    subst hb
    unfold handler handlerCore
    simp only [hget, htr]
    rfl
  · intro hm hb
    subst hm
    subst hb
    rfl

/-- Witness for the amended C4 at concrete transport-level inputs. -/
theorem transport_errors_witness :
    handler ModelResult.err "GET" Option.none = HttpResp.mk 405 (errorBody "Method not allowed") ∧
    handler ModelResult.err "POST" (some (Json.obj [])) = HttpResp.mk 400 (errorBody "Invalid Alexa request") ∧
    handler ModelResult.err "POST" Option.none = HttpResp.mk 500 apologyBody := by
  refine ⟨(transport_errors ModelResult.err "GET" Option.none).1 (by decide),
    (transport_errors ModelResult.err "POST" (some (Json.obj []))).2.1 (Json.obj []) Json.null rfl rfl rfl rfl,
    (transport_errors ModelResult.err "POST" Option.none).2.2 rfl rfl⟩

end Alexa
namespace Alexa

/-- Shared step: when the extracted query slot value is falsy, the chat
handler returns the repeat-request error response, whatever the external
call would have returned. -/
theorem chat_repeat_of_empty_query (ext : ModelResult) (req uq : Json)
    (hq : extracted_query req = some uq) (he : truthy uq = false) :
    handle_chat_intent ext req =
      create_error_response "I didn\x27t catch what you said. Could you repeat that?" := by
  unfold handle_chat_intent chat_intent_core
  simp only [hq, he, Bool.not_false, if_true]

/-- C8: every launch request routes to handle_launch_request, whose
shouldEndSession is false, whose speech text is exactly the greeting, and
whose reprompt speech text is present and non-empty. -/
theorem launch_request_response (ext : ModelResult) (req request : Json)
    (hreq : jIndex req "request" = some request)
    (hty : jIndex request "type" = some (Json.str "LaunchRequest")) :
    process_alexa_request ext req = some handle_launch_request ∧
    getSES handle_launch_request = some (Json.bool false) ∧
    getSpeechText handle_launch_request =
      some (Json.str "Hello! I\x27m your AI assistant. How can I help you today?") ∧
    getRepromptText handle_launch_request =
      some (Json.str "What would you like me to help you with?") ∧
    ("What would you like me to help you with?").isEmpty = false := by
  refine ⟨?_, rfl, rfl, rfl, rfl⟩
  unfold process_alexa_request
  simp only [hreq, hty]
  rfl

/-- Witness for C8 at the spec example input for a launch request. -/
theorem launch_request_response_witness :
    process_alexa_request ModelResult.err
        (Json.obj [("request", Json.obj [("type", Json.str "LaunchRequest")])]) =
      some handle_launch_request ∧
    getSES handle_launch_request = some (Json.bool false) ∧
    getSpeechText handle_launch_request =
      some (Json.str "Hello! I\x27m your AI assistant. How can I help you today?") ∧
    getRepromptText handle_launch_request =
      some (Json.str "What would you like me to help you with?") ∧
    ("What would you like me to help you with?").isEmpty = false :=
  launch_request_response ModelResult.err
    (Json.obj [("request", Json.obj [("type", Json.str "LaunchRequest")])])
    (Json.obj [("type", Json.str "LaunchRequest")]) rfl rfl

/-- C9: every stop or cancel intent request routes to handle_stop_intent,
whose shouldEndSession is true and which is exactly the fixed goodbye
response object. -/
theorem stop_intent_response (ext : ModelResult) (req request intent intent_name : Json)
    (hreq : jIndex req "request" = some request)
    (hty : jIndex request "type" = some (Json.str "IntentRequest"))
    (hint : jIndex request "intent" = some intent)
    (hname : jIndex intent "name" = some intent_name)
    (hsc : (isStr intent_name "AMAZON.CancelIntent" || isStr intent_name "AMAZON.StopIntent") = true) :
    process_alexa_request ext req = some handle_stop_intent ∧
    getSES handle_stop_intent = some (Json.bool true) ∧
    handle_stop_intent = Json.obj [("version", Json.str "1.0"),
      ("response", Json.obj [("outputSpeech", Json.obj [("type", Json.str "PlainText"),
        ("text", Json.str "Goodbye!")]), ("shouldEndSession", Json.bool true)])] := by
  refine ⟨?_, rfl, rfl⟩
  unfold process_alexa_request handle_intent_request
  simp only [hreq, hty, hint, hname]
  have hd : isStr intent_name "AMAZON.CancelIntent" = true ∨
      isStr intent_name "AMAZON.StopIntent" = true := by
    rcases Bool.or_eq_true_iff.mp hsc with hc | hs
    · exact Or.inl hc
    · exact Or.inr hs
  rcases hd with hc | hs
  · have := (isStr_true_iff _ _).mp hc
    subst this
    rfl
  · have := (isStr_true_iff _ _).mp hs
    subst this
    rfl

/-- Witness for C9 at the spec example input for a stop intent. -/
theorem stop_intent_response_witness :
    process_alexa_request ModelResult.err
        (Json.obj [("request", Json.obj [("type", Json.str "IntentRequest"),
          ("intent", Json.obj [("name", Json.str "AMAZON.StopIntent")])])]) =
      some handle_stop_intent ∧
    getSES handle_stop_intent = some (Json.bool true) ∧
    handle_stop_intent = Json.obj [("version", Json.str "1.0"),
      ("response", Json.obj [("outputSpeech", Json.obj [("type", Json.str "PlainText"),
        ("text", Json.str "Goodbye!")]), ("shouldEndSession", Json.bool true)])] :=
  stop_intent_response ModelResult.err
    (Json.obj [("request", Json.obj [("type", Json.str "IntentRequest"),
      ("intent", Json.obj [("name", Json.str "AMAZON.StopIntent")])])])
    (Json.obj [("type", Json.str "IntentRequest"),
      ("intent", Json.obj [("name", Json.str "AMAZON.StopIntent")])])
    (Json.obj [("name", Json.str "AMAZON.StopIntent")])
    (Json.str "AMAZON.StopIntent") rfl rfl rfl rfl rfl

end Alexa
namespace Alexa

/-- C3: on a chat-intent request with no slots mapping and no session
object, the missing fields default (slots to the empty mapping, the user
identifier to unknown), the response equals the one for explicitly empty
slots and session, and processing ends in the normal repeat-request
speech response rather than a fatal error. -/
theorem missing_optional_fields (ext : ModelResult) (ifs rfs : List (String × Json))
    (hslots : List.lookup "slots" ifs = none)
    (hsession : List.lookup "session" rfs = none) :
    extract_slots (Json.obj ifs) = some (Json.obj []) ∧
    extract_user_id (Json.obj (("request",
        Json.obj [("type", Json.str "IntentRequest"), ("intent", Json.obj ifs)]) :: rfs)) =
      some (Json.str "unknown") ∧
    handle_chat_intent ext (Json.obj (("request",
        Json.obj [("type", Json.str "IntentRequest"), ("intent", Json.obj ifs)]) :: rfs)) =
      handle_chat_intent ext (Json.obj (("request",
        Json.obj [("type", Json.str "IntentRequest"),
          ("intent", Json.obj (("slots", Json.obj []) :: ifs))]) ::
        ("session", Json.obj []) :: rfs)) ∧
    handle_chat_intent ext (Json.obj (("request",
        Json.obj [("type", Json.str "IntentRequest"), ("intent", Json.obj ifs)]) :: rfs)) =
      create_error_response "I didn\x27t catch what you said. Could you repeat that?" := by
  have hes : extract_slots (Json.obj ifs) = some (Json.obj []) := by
    have h0 : extract_slots (Json.obj ifs) =
        some ((List.lookup "slots" ifs).getD (Json.obj [])) := rfl
    rw [h0, hslots]
    rfl
  have hq : extracted_query (Json.obj (("request",
      Json.obj [("type", Json.str "IntentRequest"), ("intent", Json.obj ifs)]) :: rfs)) =
      some (Json.str "") := by
    have h1 : extracted_query (Json.obj (("request",
        Json.obj [("type", Json.str "IntentRequest"), ("intent", Json.obj ifs)]) :: rfs)) =
        (match extract_slots (Json.obj ifs) with
          | none => none
          | some slots =>
            match jGetD slots "query" (Json.obj []) with
            | none => none
            | some queryObj => jGetD queryObj "value" (Json.str "")) := rfl
    rw [h1, hes]
    rfl
  have hqE : extracted_query (Json.obj (("request",
      Json.obj [("type", Json.str "IntentRequest"),
        ("intent", Json.obj (("slots", Json.obj []) :: ifs))]) ::
      ("session", Json.obj []) :: rfs)) = some (Json.str "") := rfl
  have hmain := chat_repeat_of_empty_query ext _ (Json.str "") hq rfl
  have hmainE := chat_repeat_of_empty_query ext _ (Json.str "") hqE rfl
  refine ⟨hes, ?_, hmain.trans hmainE.symm, hmain⟩
  have h2 : extract_user_id (Json.obj (("request",
      Json.obj [("type", Json.str "IntentRequest"), ("intent", Json.obj ifs)]) :: rfs)) =
      (match jGetD ((List.lookup "session" rfs).getD (Json.obj [])) "user" (Json.obj []) with
        | none => none
        | some user => jGetD user "userId" (Json.str "unknown")) := rfl
  rw [h2, hsession]
  rfl

/-- Witness for C3 at a chat-intent request with no optional fields at
all. -/
theorem missing_optional_fields_witness :
    extract_slots (Json.obj []) = some (Json.obj []) ∧
    extract_user_id (Json.obj [("request",
        Json.obj [("type", Json.str "IntentRequest"), ("intent", Json.obj [])])]) =
      some (Json.str "unknown") ∧
    handle_chat_intent ModelResult.err (Json.obj [("request",
        Json.obj [("type", Json.str "IntentRequest"), ("intent", Json.obj [])])]) =
      handle_chat_intent ModelResult.err (Json.obj [("request",
        Json.obj [("type", Json.str "IntentRequest"),
          ("intent", Json.obj [("slots", Json.obj [])])]),
        ("session", Json.obj [])]) ∧
    handle_chat_intent ModelResult.err (Json.obj [("request",
        Json.obj [("type", Json.str "IntentRequest"), ("intent", Json.obj [])])]) =
      create_error_response "I didn\x27t catch what you said. Could you repeat that?" :=
  missing_optional_fields ModelResult.err [] [] rfl rfl

/-- C7: every chat-intent request whose query slot value is missing or
empty is answered by the router with the repeat-request error response,
whose shouldEndSession is false, and the answer does not depend on the
external AI call (the AI responder is not consulted). -/
theorem chat_empty_slot_repeat (ext ext2 : ModelResult) (req uq : Json)
    (hchat : isChatIntentReq req = true)
    (hq : extracted_query req = some uq)
    (he : truthy uq = false) :
    process_alexa_request ext req =
      some (create_error_response "I didn\x27t catch what you said. Could you repeat that?") ∧
    process_alexa_request ext req = process_alexa_request ext2 req ∧
    getSES (create_error_response "I didn\x27t catch what you said. Could you repeat that?") =
      some (Json.bool false) := by
  have key : ∀ e : ModelResult, process_alexa_request e req =
      some (create_error_response "I didn\x27t catch what you said. Could you repeat that?") := by
    intro e
    unfold isChatIntentReq at hchat
    split at hchat
    · exact absurd hchat (by simp)
    next request heq1 =>
      split at hchat
      · exact absurd hchat (by simp)
      next request_type heq2 =>
        split at hchat
        next hI =>
          split at hchat
          · exact absurd hchat (by simp)
          next intent heq3 =>
            split at hchat
            · exact absurd hchat (by simp)
            next intent_name heq4 =>
              have hn := (isStr_true_iff _ _).mp hchat
              subst hn
              have ht := (isStr_true_iff _ _).mp hI
              subst ht
              have hroute : process_alexa_request e req = some (handle_chat_intent e req) := by
                unfold process_alexa_request handle_intent_request
                simp only [heq1, heq2, heq3, heq4]
                rfl
              rw [hroute, chat_repeat_of_empty_query e req uq hq he]
        next hI => exact absurd hchat (by simp)
  exact ⟨key ext, (key ext).trans (key ext2).symm, rfl⟩

/-- Witness for C7 at a chat-intent request carrying no slots. -/
theorem chat_empty_slot_repeat_witness :
    process_alexa_request ModelResult.err
        (Json.obj [("request", Json.obj [("type", Json.str "IntentRequest"),
          ("intent", Json.obj [("name", Json.str "ChatIntent")])])]) =
      some (create_error_response "I didn\x27t catch what you said. Could you repeat that?") ∧
    process_alexa_request ModelResult.err
        (Json.obj [("request", Json.obj [("type", Json.str "IntentRequest"),
          ("intent", Json.obj [("name", Json.str "ChatIntent")])])]) =
      process_alexa_request (ModelResult.ok ("hello").toList)
        (Json.obj [("request", Json.obj [("type", Json.str "IntentRequest"),
          ("intent", Json.obj [("name", Json.str "ChatIntent")])])]) ∧
    getSES (create_error_response "I didn\x27t catch what you said. Could you repeat that?") =
      some (Json.bool false) :=
  chat_empty_slot_repeat ModelResult.err (ModelResult.ok ("hello").toList)
    (Json.obj [("request", Json.obj [("type", Json.str "IntentRequest"),
      ("intent", Json.obj [("name", Json.str "ChatIntent")])])])
    (Json.str "") rfl rfl rfl

end Alexa
namespace Alexa

/-- C2 counterexample: a JSON object with a request field (an
IntentRequest missing its intent object) on which process_alexa_request
raises a KeyError instead of producing a response. -/
theorem router_raises_counterexample :
    (jIndex (Json.obj [("request", Json.obj [("type", Json.str "IntentRequest")])]) "request").isSome = true ∧
    truthy (Json.obj [("type", Json.str "IntentRequest")]) = true ∧
    process_alexa_request ModelResult.err
      (Json.obj [("request", Json.obj [("type", Json.str "IntentRequest")])]) = none :=
  ⟨rfl, rfl, rfl⟩

/-- C2 amended: on every request whose request object carries a type and,
when that type is IntentRequest, an intent object carrying a name, the
router produces exactly one response and never raises; requests missing
one of those keys raise a KeyError that only the top-level handler
absorbs. -/
theorem router_totality (ext : ModelResult) (req : Json)
    (h : routerWellFormed req = true) :
    (process_alexa_request ext req).isSome = true := by
  unfold routerWellFormed at h
  split at h
  · exact absurd h (by simp)
  next request heq1 =>
    split at h
    · exact absurd h (by simp)
    next request_type heq2 =>
      unfold process_alexa_request
      simp only [heq1, heq2]
      split at h
      next hI =>
        split at h
        · exact absurd h (by simp)
        next intent heq3 =>
          obtain ⟨intent_name, heq4⟩ := Option.isSome_iff_exists.mp h
          have ht := (isStr_true_iff _ _).mp hI
          subst ht
          unfold handle_intent_request
          simp only [heq1, heq3, heq4]
          split
          · rfl
          · split
            · rfl
            · split
              · rfl
              · split <;> rfl
      next hI =>
        have hIf : isStr request_type "IntentRequest" = false := Bool.eq_false_iff.mpr hI
        by_cases hL : isStr request_type "LaunchRequest" = true
        · simp [hL]
        · by_cases hS : isStr request_type "SessionEndedRequest" = true
          · simp [hL, hS, hIf]
          · simp [hL, hS, hIf]

/-- Witness for the amended C2 at the concrete stop-intent request. -/
theorem router_totality_witness :
    routerWellFormed (Json.obj [("request", Json.obj [("type", Json.str "IntentRequest"),
      ("intent", Json.obj [("name", Json.str "AMAZON.StopIntent")])])]) = true ∧
    (process_alexa_request ModelResult.err
      (Json.obj [("request", Json.obj [("type", Json.str "IntentRequest"),
        ("intent", Json.obj [("name", Json.str "AMAZON.StopIntent")])])])).isSome = true :=
  ⟨rfl, router_totality ModelResult.err
    (Json.obj [("request", Json.obj [("type", Json.str "IntentRequest"),
      ("intent", Json.obj [("name", Json.str "AMAZON.StopIntent")])])]) rfl⟩

end Alexa
namespace Alexa

/-- C10: every response the router returns carries version 1.0; its
shouldEndSession is true exactly on stop and cancel intent requests; on
every other request it is false, except for session-ended requests whose
response body is empty and omits the flag. -/
theorem router_response_invariant (ext : ModelResult) (req resp : Json)
    (h : process_alexa_request ext req = some resp) :
    getVersion resp = some (Json.str "1.0") ∧
    (getSES resp = some (Json.bool true) ↔ isStopCancelReq req = true) ∧
    (isStopCancelReq req = false →
      getSES resp = some (Json.bool false) ∨
      (getSES resp = none ∧ getResponseObj resp = some (Json.obj []))) := by
  unfold process_alexa_request at h
  split at h
  · exact absurd h (by simp)
  next request heq1 =>
    split at h
    · exact absurd h (by simp)
    next request_type heq2 =>
      have hscr : isStopCancelReq req =
          (if isStr request_type "IntentRequest" = true then
            match jIndex request "intent" with
            | none => false
            | some intent =>
              match jIndex intent "name" with
              | none => false
              | some intent_name =>
                isStr intent_name "AMAZON.CancelIntent" || isStr intent_name "AMAZON.StopIntent"
          else false) := by
        unfold isStopCancelReq
        simp only [heq1, heq2]
      by_cases hL : isStr request_type "LaunchRequest" = true
      · rw [if_pos hL] at h
        injection h with h
        subst h
        have hLs := (isStr_true_iff _ _).mp hL
        subst hLs
        have hsc : isStopCancelReq req = false := by
          rw [hscr]
          simp [isStr]
        refine ⟨rfl, ?_, fun _ => Or.inl rfl⟩
        rw [show getSES handle_launch_request = some (Json.bool false) from rfl, hsc]
        simp
      · by_cases hI : isStr request_type "IntentRequest" = true
        · rw [if_neg hL, if_pos hI] at h
          have hIs := (isStr_true_iff _ _).mp hI
          subst hIs
          unfold handle_intent_request at h
          simp only [heq1] at h
          split at h
          · exact absurd h (by simp)
          next intent heq3 =>
            split at h
            · exact absurd h (by simp)
            next intent_name heq4 =>
              have hscr2 : isStopCancelReq req =
                  (isStr intent_name "AMAZON.CancelIntent" || isStr intent_name "AMAZON.StopIntent") := by
                rw [hscr]
                simp only [heq3, heq4]
                simp [isStr]
              by_cases hC : isStr intent_name "ChatIntent" = true
              · rw [if_pos hC] at h
                injection h with h
                subst h
                have hn := (isStr_true_iff _ _).mp hC
                subst hn
                have hsc : isStopCancelReq req = false := by
                  rw [hscr2]
                  rfl
                obtain ⟨hv, hses⟩ := chat_response_fields ext req
                refine ⟨hv, ?_, fun _ => Or.inl hses⟩
                rw [hses, hsc]
                simp
              · by_cases hH : isStr intent_name "AMAZON.HelpIntent" = true
                · rw [if_neg hC, if_pos hH] at h
                  injection h with h
                  subst h
                  have hn := (isStr_true_iff _ _).mp hH
                  subst hn
                  have hsc : isStopCancelReq req = false := by
                    rw [hscr2]
                    rfl
                  refine ⟨rfl, ?_, fun _ => Or.inl rfl⟩
                  rw [show getSES handle_help_intent = some (Json.bool false) from rfl, hsc]
                  simp
                · by_cases hSC : (isStr intent_name "AMAZON.CancelIntent" || isStr intent_name "AMAZON.StopIntent") = true
                  · rw [if_neg hC, if_neg hH, if_pos hSC] at h
                    injection h with h
                    subst h
                    have hsc : isStopCancelReq req = true := by
                      rw [hscr2]
                      exact hSC
                    refine ⟨rfl, ?_, ?_⟩
                    · rw [show getSES handle_stop_intent = some (Json.bool true) from rfl, hsc]
                      simp
                    · intro hx
                      rw [hsc] at hx
                      exact absurd hx (by simp)
                  · rw [if_neg hC, if_neg hH, if_neg hSC] at h
                    injection h with h
                    subst h
                    have hsc : isStopCancelReq req = false := by
                      rw [hscr2]
                      exact Bool.eq_false_iff.mpr hSC
                    refine ⟨rfl, ?_, fun _ => Or.inl rfl⟩
                    rw [show getSES (create_error_response "I didn\x27t understand that request.") = some (Json.bool false) from rfl, hsc]
                    simp
        · by_cases hS : isStr request_type "SessionEndedRequest" = true
          · rw [if_neg hL, if_neg hI, if_pos hS] at h
            injection h with h
            subst h
            have hsc : isStopCancelReq req = false := by
              rw [hscr, if_neg hI]
            refine ⟨rfl, ?_, fun _ => Or.inr ⟨rfl, rfl⟩⟩
            rw [show getSES handle_session_ended_request = none from rfl, hsc]
            simp
          · rw [if_neg hL, if_neg hI, if_neg hS] at h
            injection h with h
            subst h
            have hsc : isStopCancelReq req = false := by
              rw [hscr, if_neg hI]
            refine ⟨rfl, ?_, fun _ => Or.inl rfl⟩
            rw [show getSES (create_error_response "Unknown request type") = some (Json.bool false) from rfl, hsc]
            simp

/-- Witness for C10 at the concrete stop-intent request and its response. -/
theorem router_response_invariant_witness :
    getVersion handle_stop_intent = some (Json.str "1.0") ∧
    (getSES handle_stop_intent = some (Json.bool true) ↔
      isStopCancelReq (Json.obj [("request", Json.obj [("type", Json.str "IntentRequest"),
        ("intent", Json.obj [("name", Json.str "AMAZON.StopIntent")])])]) = true) ∧
    (isStopCancelReq (Json.obj [("request", Json.obj [("type", Json.str "IntentRequest"),
        ("intent", Json.obj [("name", Json.str "AMAZON.StopIntent")])])]) = false →
      getSES handle_stop_intent = some (Json.bool false) ∨
      (getSES handle_stop_intent = none ∧ getResponseObj handle_stop_intent = some (Json.obj []))) :=
  router_response_invariant ModelResult.err
    (Json.obj [("request", Json.obj [("type", Json.str "IntentRequest"),
      ("intent", Json.obj [("name", Json.str "AMAZON.StopIntent")])])])
    handle_stop_intent rfl

end Alexa
